import Mathlib

/-!
Shallow embedding of the `physical_asset_delivery` ink! contract
(`src/contracts/supply-chain/delivery.rs`) of Matrix-Magiq-ELXR.

Identifiers (`ShipmentId`, `OrderId`, `AccountId`, ...) are `Nat`; byte
vectors are `List Nat`; the keyed `Mapping` stores are association lists
with overwrite-on-insert semantics.  Every contract message is a pure
function from an explicit execution context (caller, block timestamp) and
a `ContractState` to `Except Error (new state, emitted events, return
value)`; the surrounding ledger's transactional semantics (an erroring
call commits nothing) is captured by `exec`, which keeps the pre-state on
error.  Placeholder helper bodies of the source (`verify_carrier_auth`,
`check_payment_conditions`, ...) are embedded exactly as written, and the
operations that call them are additionally stated generically in the
helper (`update_shipment_status_gen`, `authenticate_product_gen`) so that
properties about the helper's intended behaviour can be expressed.
-/

namespace PhysicalAssetDelivery

abbrev ShipmentId := Nat
abbrev OrderId := Nat
abbrev ProductId := Nat
abbrev CarrierId := Nat
abbrev WarehouseId := Nat
abbrev AccountId := Nat
abbrev Timestamp := Nat
abbrev Balance := Nat
abbrev Address := Nat

/-- `ShipmentStatus` from the source (lines 359-364). -/
inductive ShipmentStatus where
  | Created
  | InTransit
  | Delivered
  | Verified
deriving DecidableEq, Repr

/-- `EventType` from the source (lines 368-373). -/
inductive EventType where
  | PickedUp
  | InTransit
  | Delivered
  | Exception
deriving DecidableEq, Repr

/-- `Error` from the source (lines 378-386). -/
inductive Error where
  | ShipmentNotFound
  | OrderNotFound
  | ProductNotFound
  | NotDelivered
  | InvalidCarrier
  | UnauthorizedAccess
  | PaymentError
deriving DecidableEq, Repr

/-- Modelled from the spec: `TrackingEvent` is referenced by the source
(field `tracking_data`, accesses `event.event_type`) but never declared in
`src/`; the spec glossary calls it a timestamped lifecycle signal, so it
carries an event type, a timestamp and a location. -/
structure TrackingEvent where
  event_type : EventType
  timestamp : Timestamp
  location : Address
deriving DecidableEq, Repr

/-- `Shipment` from the source (lines 34-42). -/
structure Shipment where
  order_id : OrderId
  status : ShipmentStatus
  origin : WarehouseId
  destination : Address
  carrier : CarrierId
  tracking_data : List TrackingEvent
  quantum_seal : List Nat
deriving DecidableEq, Repr

/-- `FulfillmentOrder` from the source (lines 45-51); `ProductQuantity`,
`FulfillmentRequirements` and `OrderStatus` are undeclared in `src/` and
opaque to every operation, so they are embedded as numbers. -/
structure FulfillmentOrder where
  products : List (ProductId × Nat)
  warehouse : WarehouseId
  requirements : Nat
  status : Nat
  created_at : Timestamp
deriving DecidableEq, Repr

/-- `DeliveryVerification` from the source (lines 54-59);
`DilithiumSignature` is opaque and embedded as a number. -/
structure DeliveryVerification where
  proof_of_delivery : List Nat
  verifier_signature : Nat
  completion_time : Timestamp
  condition_report : List Nat
deriving DecidableEq, Repr

/-- `WarehouseInfo` from the source (lines 62-67), opaque payload types
embedded as numbers. -/
structure WarehouseInfo where
  location : Address
  capacity : Nat
  certifications : List Nat
  status : Nat
deriving DecidableEq, Repr

/-- `CarrierInfo` from the source (lines 70-75), opaque payload types
embedded as numbers. -/
structure CarrierInfo where
  service_level : Nat
  coverage_area : List Nat
  performance_metrics : Nat
  active : Bool
deriving DecidableEq, Repr

/-- Modelled from the spec: `AuthenticationEvent` is constructed by
`authenticate_product` (source lines 206-210) with fields `timestamp`,
`location`, `verifier`, but the struct itself is not declared in `src/`. -/
structure AuthenticationEvent where
  timestamp : Timestamp
  location : Address
  verifier : AccountId
deriving DecidableEq, Repr

/-- `AuthenticationData` from the source (lines 78-82); the 32-byte
product hash is a byte list. -/
structure AuthenticationData where
  product_hash : List Nat
  manufacturer_proof : List Nat
  authentication_history : List AuthenticationEvent
deriving DecidableEq, Repr

/-- Modelled from the spec: `EscrowStatus` is used by the source (field
`PaymentEscrow.status`, line 89) but the enum is not declared in `src/`;
the spec gives its variants as {Pending, ConditionsMet, Released,
Refunded} with `Pending` initial. -/
inductive EscrowStatus where
  | Pending
  | ConditionsMet
  | Released
  | Refunded
deriving DecidableEq, Repr

/-- `PaymentEscrow` from the source (lines 85-90); `PaymentCondition` and
signatures are opaque and embedded as numbers. -/
structure PaymentEscrow where
  amount : Balance
  conditions : List Nat
  release_signatures : List Nat
  status : EscrowStatus
deriving DecidableEq, Repr

/-- Association-list lookup, the embedding of `Mapping::get`. -/
def mapGet {V : Type} (m : List (Nat × V)) (k : Nat) : Option V :=
  match m with
  | [] => none
  | (key, val) :: rest => if k = key then some val else mapGet rest k

/-- Association-list overwrite-insert, the embedding of `Mapping::insert`. -/
def mapInsert {V : Type} (m : List (Nat × V)) (k : Nat) (v : V) : List (Nat × V) :=
  match m with
  | [] => [(k, v)]
  | (key, val) :: rest =>
    if k = key then (k, v) :: rest else (key, val) :: mapInsert rest k v

/-- The contract storage struct `PhysicalAssetDelivery` (source lines
15-31), field for field. -/
structure ContractState where
  shipments : List (ShipmentId × Shipment)
  fulfillment_orders : List (OrderId × FulfillmentOrder)
  delivery_verifications : List (ShipmentId × DeliveryVerification)
  warehouses : List (WarehouseId × WarehouseInfo)
  carriers : List (CarrierId × CarrierInfo)
  product_authentications : List (ProductId × AuthenticationData)
  verification_keys : List (AccountId × Nat)
  conditional_payments : List (ShipmentId × PaymentEscrow)
deriving DecidableEq, Repr

/-- The four event structs emitted by the contract (source lines 322-354). -/
inductive Event where
  | ShipmentCreated (shipment_id : ShipmentId) (order_id : OrderId)
      (warehouse : WarehouseId) (carrier : CarrierId)
  | ShipmentUpdated (shipment_id : ShipmentId) (status : ShipmentStatus)
      (event : EventType)
  | DeliveryVerified (shipment_id : ShipmentId) (verifier : AccountId)
      (timestamp : Timestamp)
  | ProductAuthenticated (product_id : ProductId) (authentic : Bool)
      (verifier : AccountId)
deriving DecidableEq, Repr

/-- Placeholder body from the source (lines 226-233): warehouse selection
returns `WarehouseId::default()`. -/
def select_warehouse (order : FulfillmentOrder) (requirements : Nat) :
    Except Error WarehouseId :=
  .ok 0

/-- Placeholder body from the source (lines 235-243): carrier selection
returns `CarrierId::default()`. -/
def select_carrier (warehouse_id : WarehouseId) (destination : Address)
    (requirements : Nat) : Except Error CarrierId :=
  .ok 0

/-- Placeholder body from the source (lines 245-252): the carrier
authorization check returns `Ok(())` for every caller. -/
def verify_carrier_auth (account : AccountId) (carrier_id : CarrierId) :
    Except Error Unit :=
  .ok ()

/-- Placeholder body from the source (lines 254-257): the shipment id
generator returns `ShipmentId::default()` on every call. -/
def generate_shipment_id : ShipmentId := 0

/-- Placeholder body from the source (lines 259-265): the quantum seal is
an empty byte vector. -/
def generate_quantum_seal (order : FulfillmentOrder) : List Nat := []

/-- The escrow produced by `PaymentEscrow::default()`; the initial status
is `Pending` per the spec (the enum is absent from `src/`). -/
def defaultPaymentEscrow : PaymentEscrow :=
  { amount := 0, conditions := [], release_signatures := [], status := .Pending }

/-- Placeholder body from the source (lines 267-275): escrow setup returns
`Ok(PaymentEscrow::default())`. -/
def setup_payment_escrow (shipment_id : ShipmentId) (order : FulfillmentOrder)
    (requirements : Nat) : Except Error PaymentEscrow :=
  .ok defaultPaymentEscrow

/-- Placeholder body from the source (lines 277-285): condition checking
returns `Ok(())` and mutates nothing. -/
def check_payment_conditions (escrow : PaymentEscrow) (shipment : Shipment)
    (event : TrackingEvent) : Except Error Unit :=
  .ok ()

/-- Placeholder body from the source (lines 287-294): payment release
returns `Ok(())` and mutates nothing. -/
def process_payment_release (escrow : PaymentEscrow)
    (verification : DeliveryVerification) : Except Error Unit :=
  .ok ()

/-- Placeholder body from the source (lines 296-304): the verifier
signature is `DilithiumSignature::default()`. -/
def sign_delivery_verification (shipment_id : ShipmentId) (proof : List Nat)
    (condition_report : List Nat) : Nat :=
  0

/-- Placeholder body from the source (lines 306-313): authenticity
verification returns `Ok(true)`. -/
def verify_product_authenticity (auth_info : AuthenticationData)
    (authentication_data : List Nat) : Except Error Bool :=
  .ok true

/-- Placeholder body from the source (lines 315-318): the verifier
location is `Address::default()`. -/
def get_verifier_location : Except Error Address := .ok 0

/-- The status transition table of `update_shipment_status` (source lines
117-121): `PickedUp` sets `InTransit`, `Delivered` sets `Delivered`, every
other event type keeps the current status. -/
def nextStatus (current : ShipmentStatus) (e : EventType) : ShipmentStatus :=
  match e with
  | .PickedUp => .InTransit
  | .Delivered => .Delivered
  | _ => current

/-- `update_shipment_status` (source lines 100-141), generic in the
carrier-authorization check so that the intended (non-placeholder)
behaviour of `verify_carrier_auth` can also be analysed. -/
def update_shipment_status_gen
    (auth : AccountId → CarrierId → Except Error Unit)
    (caller : AccountId) (s : ContractState) (shipment_id : ShipmentId)
    (event : TrackingEvent) : Except Error (ContractState × List Event) :=
  match mapGet s.shipments shipment_id with
  | none => .error .ShipmentNotFound
  | some shipment =>
    match auth caller shipment.carrier with
    | .error e => .error e
    | .ok () =>
      let shipment' : Shipment :=
        { shipment with
          tracking_data := shipment.tracking_data ++ [event],
          status := nextStatus shipment.status event.event_type }
      let s' := { s with shipments := mapInsert s.shipments shipment_id shipment' }
      match mapGet s'.conditional_payments shipment_id with
      | some escrow =>
        match check_payment_conditions escrow shipment' event with
        | .error e => .error e
        | .ok () =>
          .ok (s', [.ShipmentUpdated shipment_id shipment'.status event.event_type])
      | none =>
        .ok (s', [.ShipmentUpdated shipment_id shipment'.status event.event_type])

/-- `update_shipment_status` exactly as in the source, with the
placeholder `verify_carrier_auth`. -/
def update_shipment_status (caller : AccountId) (s : ContractState)
    (shipment_id : ShipmentId) (event : TrackingEvent) :
    Except Error (ContractState × List Event) :=
  update_shipment_status_gen verify_carrier_auth caller s shipment_id event

/-- `verify_delivery` (source lines 143-187). -/
def verify_delivery (caller : AccountId) (ts : Timestamp) (s : ContractState)
    (shipment_id : ShipmentId) (proof : List Nat) (condition_report : List Nat) :
    Except Error (ContractState × List Event) :=
  match mapGet s.shipments shipment_id with
  | none => .error .ShipmentNotFound
  | some shipment =>
    if shipment.status = ShipmentStatus.Delivered then
      let verifier_signature :=
        sign_delivery_verification shipment_id proof condition_report
      let verification : DeliveryVerification :=
        { proof_of_delivery := proof, verifier_signature,
          completion_time := ts, condition_report }
      let s' := { s with delivery_verifications :=
                    mapInsert s.delivery_verifications shipment_id verification }
      match mapGet s'.conditional_payments shipment_id with
      | some escrow =>
        match process_payment_release escrow verification with
        | .error e => .error e
        | .ok () => .ok (s', [.DeliveryVerified shipment_id caller ts])
      | none => .ok (s', [.DeliveryVerified shipment_id caller ts])
    else
      .error .NotDelivered

/-- `authenticate_product` (source lines 189-223), generic in the
authenticity check so that the intended (non-placeholder) behaviour of
`verify_product_authenticity` can also be analysed. -/
def authenticate_product_gen
    (check : AuthenticationData → List Nat → Except Error Bool)
    (caller : AccountId) (ts : Timestamp) (s : ContractState)
    (product_id : ProductId) (authentication_data : List Nat) :
    Except Error (ContractState × List Event × Bool) :=
  match mapGet s.product_authentications product_id with
  | none => .error .ProductNotFound
  | some auth_info =>
    match check auth_info authentication_data with
    | .error e => .error e
    | .ok authentic =>
      if authentic then
        match get_verifier_location with
        | .error e => .error e
        | .ok location =>
          let ev : AuthenticationEvent :=
            { timestamp := ts, location, verifier := caller }
          let auth_info' :=
            { auth_info with
              authentication_history := auth_info.authentication_history ++ [ev] }
          let s' := { s with product_authentications :=
                        mapInsert s.product_authentications product_id auth_info' }
          .ok (s', [.ProductAuthenticated product_id authentic caller], authentic)
      else
        .ok (s, [.ProductAuthenticated product_id authentic caller], authentic)

/-- `authenticate_product` exactly as in the source, with the placeholder
`verify_product_authenticity`. -/
def authenticate_product (caller : AccountId) (ts : Timestamp)
    (s : ContractState) (product_id : ProductId)
    (authentication_data : List Nat) :
    Except Error (ContractState × List Event × Bool) :=
  authenticate_product_gen verify_product_authenticity caller ts s product_id
    authentication_data

/-- `create_shipment` (source lines 389-443). -/
def create_shipment (s : ContractState) (order_id : OrderId)
    (destination : Address) (requirements : Nat) :
    Except Error (ContractState × List Event × ShipmentId) :=
  match mapGet s.fulfillment_orders order_id with
  | none => .error .OrderNotFound
  | some order =>
    match select_warehouse order requirements with
    | .error e => .error e
    | .ok warehouse_id =>
      match select_carrier warehouse_id destination requirements with
      | .error e => .error e
      | .ok carrier_id =>
        let shipment_id := generate_shipment_id
        let quantum_seal := generate_quantum_seal order
        let shipment : Shipment :=
          { order_id, status := .Created, origin := warehouse_id, destination,
            carrier := carrier_id, tracking_data := [], quantum_seal }
        let s1 := { s with shipments := mapInsert s.shipments shipment_id shipment }
        match setup_payment_escrow shipment_id order requirements with
        | .error e => .error e
        | .ok escrow =>
          let s2 := { s1 with conditional_payments :=
                        mapInsert s1.conditional_payments shipment_id escrow }
          .ok (s2, [.ShipmentCreated shipment_id order_id warehouse_id carrier_id],
               shipment_id)

/-- One invocation of a contract message together with its execution
context (caller identity and, where the message reads it, the block
timestamp). -/
inductive Op where
  | create (caller : AccountId) (order_id : OrderId) (destination : Address)
      (requirements : Nat)
  | update (caller : AccountId) (shipment_id : ShipmentId) (event : TrackingEvent)
  | verify (caller : AccountId) (ts : Timestamp) (shipment_id : ShipmentId)
      (proof : List Nat) (condition_report : List Nat)
  | authenticate (caller : AccountId) (ts : Timestamp) (product_id : ProductId)
      (data : List Nat)
deriving DecidableEq, Repr

/-- Transactional semantics of the ledger: an erroring call commits
nothing, so the pre-state is kept. -/
def keepOnError {A : Type} (s : ContractState)
    (r : Except Error (ContractState × A)) : ContractState :=
  match r with
  | .ok (s', _) => s'
  | .error _ => s

/-- Apply one message invocation to the stored state. -/
def exec (s : ContractState) (op : Op) : ContractState :=
  match op with
  | .create _caller order_id destination requirements =>
    keepOnError s (create_shipment s order_id destination requirements)
  | .update caller shipment_id event =>
    keepOnError s (update_shipment_status caller s shipment_id event)
  | .verify caller ts shipment_id proof report =>
    keepOnError s (verify_delivery caller ts s shipment_id proof report)
  | .authenticate caller ts product_id data =>
    keepOnError s (authenticate_product caller ts s product_id data)

/-- Run a sequence of message invocations. -/
def run (s : ContractState) (ops : List Op) : ContractState :=
  ops.foldl exec s

/-- Modelled from the spec: `FulfillmentOrder` records are created
upstream, out of this contract's scope, and the catalogs (warehouses,
carriers, product registrations, keys) are administered externally.  A
boot state therefore has arbitrary catalog contents but empty shipment,
verification and escrow stores — exactly what the contract's constructor
(which initializes nothing) guarantees for its own stores. -/
def initOk (s : ContractState) : Prop :=
  s.shipments = [] ∧ s.delivery_verifications = [] ∧ s.conditional_payments = []

/-- Numeric rank of the lifecycle order Created → InTransit → Delivered →
Verified used by the spec's monotonicity statements. -/
def statusRank : ShipmentStatus → Nat
  | .Created => 0
  | .InTransit => 1
  | .Delivered => 2
  | .Verified => 3

/-- Every stored shipment has a status other than `Verified`. -/
def shipNotVerified (s : ContractState) : Prop :=
  ∀ id sh, mapGet s.shipments id = some sh → sh.status ≠ ShipmentStatus.Verified

/-- Every stored escrow has status `Pending`. -/
def escrowAllPending (s : ContractState) : Prop :=
  ∀ id e, mapGet s.conditional_payments id = some e →
    e.status = EscrowStatus.Pending

/-- Whether a contract call succeeded. -/
def isOkE {A : Type} : Except Error A → Bool
  | .ok _ => true
  | .error _ => false

/-- The shipment id returned by a successful `create_shipment` call. -/
def createdShipmentId :
    Except Error (ContractState × List Event × ShipmentId) → Option ShipmentId
  | .ok (_, _, id) => some id
  | .error _ => none

/-- A sample fulfillment order registered under id 7. -/
def order7 : FulfillmentOrder :=
  { products := [(1, 2)], warehouse := 4, requirements := 0, status := 0,
    created_at := 50 }

/-- A sample fulfillment order registered under id 8. -/
def order8 : FulfillmentOrder :=
  { products := [(2, 1)], warehouse := 4, requirements := 0, status := 0,
    created_at := 60 }

/-- Sample authentication data registered for product 3. -/
def prodAuth3 : AuthenticationData :=
  { product_hash := [1, 2], manufacturer_proof := [3],
    authentication_history := [] }

/-- A concrete boot state: two catalog orders, one registered product,
empty shipment, verification and escrow stores. -/
def bootState : ContractState :=
  { shipments := [], fulfillment_orders := [(7, order7), (8, order8)],
    delivery_verifications := [], warehouses := [], carriers := [],
    product_authentications := [(3, prodAuth3)], verification_keys := [],
    conditional_payments := [] }

/-- A concrete `PickedUp` tracking event. -/
def evPickedUp : TrackingEvent :=
  { event_type := .PickedUp, timestamp := 10, location := 5 }

/-- A concrete `Delivered` tracking event. -/
def evDelivered : TrackingEvent :=
  { event_type := .Delivered, timestamp := 20, location := 6 }

/-- The shipment stored under id 0 right after `create_shipment` for
order 7 with destination 55. -/
def w1Shipment : Shipment :=
  { order_id := 7, status := .Created, origin := 0, destination := 55,
    carrier := 0, tracking_data := [], quantum_seal := [] }

/-- The state after creating a shipment for order 7. -/
def w1State : ContractState := run bootState [Op.create 1 7 55 0]

/-- The state after additionally applying a `PickedUp` event. -/
def w1StateUpd : ContractState :=
  { w1State with shipments :=
                   mapInsert w1State.shipments 0
                     ({ w1Shipment with tracking_data := [evPickedUp],
                                        status := .InTransit }) }

/-- Create a shipment for order 7, drive it to `Delivered`, and verify it
once at time 100. -/
def c3Trace : List Op :=
  [Op.create 1 7 55 0, Op.update 2 0 evPickedUp, Op.update 2 0 evDelivered,
   Op.verify 3 100 0 [1] [2]]

/-- The state reached by `c3Trace`. -/
def c3State : ContractState := run bootState c3Trace

/-- The shipment stored under id 0 in `c3State`. -/
def c3Shipment : Shipment :=
  { order_id := 7, status := .Delivered, origin := 0, destination := 55,
    carrier := 0, tracking_data := [evPickedUp, evDelivered],
    quantum_seal := [] }

/-- The delivery verification stored under id 0 in `c3State`. -/
def c3V0 : DeliveryVerification :=
  { proof_of_delivery := [1], verifier_signature := 0, completion_time := 100,
    condition_report := [2] }

theorem mapGet_mapInsert {V : Type} (m : List (Nat × V)) (k : Nat) (v : V)
    (q : Nat) :
    mapGet (mapInsert m k v) q = if q = k then some v else mapGet m q := by
  induction m with
  | nil => simp [mapInsert, mapGet]
  | cons hd tl ih =>
    obtain ⟨key, val⟩ := hd
    by_cases hk : k = key
    · subst hk
      simp only [mapInsert, if_pos rfl]
      by_cases hq : q = k <;> simp [mapGet, hq]
    · simp only [mapInsert, if_neg hk, mapGet]
      by_cases hq : q = key
      · subst hq
        have hqk : ¬ q = k := fun h => hk h.symm
        simp [mapGet, hqk]
      · simp [mapGet, hq, ih]

theorem update_shipment_status_ok (caller : AccountId) (s : ContractState)
    (shipment_id : ShipmentId) (event : TrackingEvent) (sh : Shipment)
    (hsh : mapGet s.shipments shipment_id = some sh) :
    update_shipment_status caller s shipment_id event =
      .ok ({ s with shipments :=
                      mapInsert s.shipments shipment_id
                        ({ sh with
                            tracking_data := sh.tracking_data ++ [event],
                            status := nextStatus sh.status event.event_type }) },
           [Event.ShipmentUpdated shipment_id
              (nextStatus sh.status event.event_type) event.event_type]) := by
  cases hesc : mapGet s.conditional_payments shipment_id <;>
    simp [update_shipment_status, update_shipment_status_gen, hsh,
      verify_carrier_auth, check_payment_conditions, hesc]

theorem verify_delivery_ok (caller : AccountId) (ts : Timestamp)
    (s : ContractState) (shipment_id : ShipmentId)
    (proof condition_report : List Nat) (sh : Shipment)
    (hsh : mapGet s.shipments shipment_id = some sh)
    (hst : sh.status = ShipmentStatus.Delivered) :
    verify_delivery caller ts s shipment_id proof condition_report =
      .ok ({ s with delivery_verifications :=
                      mapInsert s.delivery_verifications shipment_id
                        ({ proof_of_delivery := proof,
                           verifier_signature :=
                             sign_delivery_verification shipment_id proof
                               condition_report,
                           completion_time := ts, condition_report }) },
           [Event.DeliveryVerified shipment_id caller ts]) := by
  cases hesc : mapGet s.conditional_payments shipment_id <;>
    simp [verify_delivery, hsh, hst, process_payment_release, hesc]

theorem create_shipment_ok (s : ContractState) (order_id : OrderId)
    (destination : Address) (requirements : Nat) (order : FulfillmentOrder)
    (horder : mapGet s.fulfillment_orders order_id = some order) :
    create_shipment s order_id destination requirements =
      .ok ({ s with
               shipments := mapInsert s.shipments 0
                 { order_id := order_id, status := .Created, origin := 0,
                   destination := destination, carrier := 0,
                   tracking_data := [], quantum_seal := [] },
               conditional_payments :=
                 mapInsert s.conditional_payments 0 defaultPaymentEscrow },
           [Event.ShipmentCreated 0 order_id 0 0], 0) := by
  unfold create_shipment
  rw [horder]
  simp [select_warehouse, select_carrier, setup_payment_escrow,
    generate_shipment_id, generate_quantum_seal]

theorem exec_create_none (caller : AccountId) (s : ContractState)
    (order_id : OrderId) (destination : Address) (requirements : Nat)
    (horder : mapGet s.fulfillment_orders order_id = none) :
    exec s (.create caller order_id destination requirements) = s := by
  simp [exec, keepOnError, create_shipment, horder]

theorem exec_create_some (caller : AccountId) (s : ContractState)
    (order_id : OrderId) (destination : Address) (requirements : Nat)
    (order : FulfillmentOrder)
    (horder : mapGet s.fulfillment_orders order_id = some order) :
    exec s (.create caller order_id destination requirements) =
      { s with
        shipments := mapInsert s.shipments 0
          { order_id := order_id, status := .Created, origin := 0,
            destination := destination, carrier := 0,
            tracking_data := [], quantum_seal := [] },
        conditional_payments :=
          mapInsert s.conditional_payments 0 defaultPaymentEscrow } := by
  have h1 := create_shipment_ok s order_id destination requirements order horder
  simp [exec, keepOnError, h1]

theorem exec_update_none (caller : AccountId) (s : ContractState)
    (shipment_id : ShipmentId) (event : TrackingEvent)
    (hsh : mapGet s.shipments shipment_id = none) :
    exec s (.update caller shipment_id event) = s := by
  simp [exec, keepOnError, update_shipment_status, update_shipment_status_gen, hsh]

theorem exec_update_some (caller : AccountId) (s : ContractState)
    (shipment_id : ShipmentId) (event : TrackingEvent) (sh : Shipment)
    (hsh : mapGet s.shipments shipment_id = some sh) :
    exec s (.update caller shipment_id event) =
      { s with shipments :=
                 mapInsert s.shipments shipment_id
                   ({ sh with
                       tracking_data := sh.tracking_data ++ [event],
                       status := nextStatus sh.status event.event_type }) } := by
  have h1 := update_shipment_status_ok caller s shipment_id event sh hsh
  simp [exec, keepOnError, h1]

theorem exec_verify_frames (caller : AccountId) (ts : Timestamp)
    (s : ContractState) (shipment_id : ShipmentId) (proof report : List Nat) :
    (exec s (.verify caller ts shipment_id proof report)).shipments =
      s.shipments ∧
    (exec s (.verify caller ts shipment_id proof report)).conditional_payments =
      s.conditional_payments := by
  cases hsh : mapGet s.shipments shipment_id with
  | none => simp [exec, keepOnError, verify_delivery, hsh]
  | some sh =>
    by_cases hst : sh.status = ShipmentStatus.Delivered
    · cases hesc : mapGet s.conditional_payments shipment_id <;>
        simp [exec, keepOnError, verify_delivery, hsh, hst, hesc,
          process_payment_release]
    · simp [exec, keepOnError, verify_delivery, hsh, hst]

theorem exec_authenticate_frames (caller : AccountId) (ts : Timestamp)
    (s : ContractState) (product_id : ProductId) (data : List Nat) :
    (exec s (.authenticate caller ts product_id data)).shipments =
      s.shipments ∧
    (exec s (.authenticate caller ts product_id data)).conditional_payments =
      s.conditional_payments := by
  cases hp : mapGet s.product_authentications product_id with
  | none => simp [exec, keepOnError, authenticate_product,
      authenticate_product_gen, hp]
  | some info => simp [exec, keepOnError, authenticate_product,
      authenticate_product_gen, hp, verify_product_authenticity,
      get_verifier_location]

theorem shipNotVerified_exec (s : ContractState) (op : Op)
    (h : shipNotVerified s) : shipNotVerified (exec s op) := by
  cases op with
  | create caller order_id destination requirements =>
    cases horder : mapGet s.fulfillment_orders order_id with
    | none => rw [exec_create_none caller s order_id destination requirements horder]; exact h
    | some order =>
      rw [exec_create_some caller s order_id destination requirements order horder]
      intro id sh hsh
      simp only [mapGet_mapInsert] at hsh
      by_cases hid : id = 0
      · rw [if_pos hid] at hsh
        cases hsh
        simp
      · rw [if_neg hid] at hsh
        exact h id sh hsh
  | update caller shipment_id event =>
    cases hsh0 : mapGet s.shipments shipment_id with
    | none => rw [exec_update_none caller s shipment_id event hsh0]; exact h
    | some sh0 =>
      rw [exec_update_some caller s shipment_id event sh0 hsh0]
      intro id sh hsh
      simp only [mapGet_mapInsert] at hsh
      by_cases hid : id = shipment_id
      · rw [if_pos hid] at hsh
        cases hsh
        have h0 := h shipment_id sh0 hsh0
        cases hs0 : sh0.status <;> cases het : event.event_type <;>
          simp_all [nextStatus]
      · rw [if_neg hid] at hsh
        exact h id sh hsh
  | verify caller ts shipment_id proof report =>
    intro id sh hsh
    rw [(exec_verify_frames caller ts s shipment_id proof report).1] at hsh
    exact h id sh hsh
  | authenticate caller ts product_id data =>
    intro id sh hsh
    rw [(exec_authenticate_frames caller ts s product_id data).1] at hsh
    exact h id sh hsh

theorem escrowAllPending_exec (s : ContractState) (op : Op)
    (h : escrowAllPending s) : escrowAllPending (exec s op) := by
  cases op with
  | create caller order_id destination requirements =>
    cases horder : mapGet s.fulfillment_orders order_id with
    | none => rw [exec_create_none caller s order_id destination requirements horder]; exact h
    | some order =>
      rw [exec_create_some caller s order_id destination requirements order horder]
      intro id e he
      simp only [mapGet_mapInsert] at he
      by_cases hid : id = 0
      · rw [if_pos hid] at he
        cases he
        simp [defaultPaymentEscrow]
      · rw [if_neg hid] at he
        exact h id e he
  | update caller shipment_id event =>
    cases hsh0 : mapGet s.shipments shipment_id with
    | none => rw [exec_update_none caller s shipment_id event hsh0]; exact h
    | some sh0 =>
      rw [exec_update_some caller s shipment_id event sh0 hsh0]
      intro id e he
      exact h id e he
  | verify caller ts shipment_id proof report =>
    intro id e he
    rw [(exec_verify_frames caller ts s shipment_id proof report).2] at he
    exact h id e he
  | authenticate caller ts product_id data =>
    intro id e he
    rw [(exec_authenticate_frames caller ts s product_id data).2] at he
    exact h id e he

theorem shipNotVerified_run (s : ContractState) (ops : List Op)
    (h : shipNotVerified s) : shipNotVerified (run s ops) := by
  induction ops generalizing s with
  | nil => exact h
  | cons op rest ih => exact ih (exec s op) (shipNotVerified_exec s op h)

theorem escrowAllPending_run (s : ContractState) (ops : List Op)
    (h : escrowAllPending s) : escrowAllPending (run s ops) := by
  induction ops generalizing s with
  | nil => exact h
  | cons op rest ih => exact ih (exec s op) (escrowAllPending_exec s op h)

theorem initOk_shipNotVerified (s : ContractState) (h : initOk s) :
    shipNotVerified s := by
  intro id sh hsh
  rw [h.1] at hsh
  simp [mapGet] at hsh

theorem initOk_escrowAllPending (s : ContractState) (h : initOk s) :
    escrowAllPending s := by
  intro id e he
  rw [h.2.2] at he
  simp [mapGet] at he

theorem nextStatus_forward (st : ShipmentStatus) (et : EventType)
    (h : st ≠ ShipmentStatus.Verified) :
    statusRank st ≤ statusRank (nextStatus st et) ∨
      (st = ShipmentStatus.Delivered ∧ et = EventType.PickedUp ∧
        nextStatus st et = ShipmentStatus.InTransit) := by
  cases st <;> cases et <;> first | exact absurd rfl h | decide

theorem authenticate_product_gen_ok_true
    (check : AuthenticationData → List Nat → Except Error Bool)
    (caller : AccountId) (ts : Timestamp) (s : ContractState)
    (product_id : ProductId) (data : List Nat) (info : AuthenticationData)
    (h : mapGet s.product_authentications product_id = some info)
    (hc : check info data = .ok true) :
    authenticate_product_gen check caller ts s product_id data =
      .ok ({ s with product_authentications :=
                      mapInsert s.product_authentications product_id
                        ({ info with authentication_history :=
                             info.authentication_history ++
                               [{ timestamp := ts, location := 0,
                                  verifier := caller }] }) },
           [Event.ProductAuthenticated product_id true caller], true) := by
  simp [authenticate_product_gen, h, hc, get_verifier_location]

theorem authenticate_product_gen_ok_false
    (check : AuthenticationData → List Nat → Except Error Bool)
    (caller : AccountId) (ts : Timestamp) (s : ContractState)
    (product_id : ProductId) (data : List Nat) (info : AuthenticationData)
    (h : mapGet s.product_authentications product_id = some info)
    (hc : check info data = .ok false) :
    authenticate_product_gen check caller ts s product_id data =
      .ok (s, [Event.ProductAuthenticated product_id false caller], false) := by
  simp [authenticate_product_gen, h, hc]

/-- C1: the claim fails on the code.  Along the concrete operation
sequence create → PickedUp → Delivered, the stored shipment has status
`Delivered`; one further `update_shipment_status` call with a `PickedUp`
event moves the status back to `InTransit`, an earlier status. -/
theorem c1_status_regresses_after_delivered :
    (mapGet (run bootState [Op.create 1 7 55 0, Op.update 2 0 evPickedUp,
        Op.update 2 0 evDelivered]).shipments 0).map Shipment.status =
      some ShipmentStatus.Delivered ∧
    (mapGet (run bootState [Op.create 1 7 55 0, Op.update 2 0 evPickedUp,
        Op.update 2 0 evDelivered, Op.update 2 0 evPickedUp]).shipments 0).map
        Shipment.status = some ShipmentStatus.InTransit := by
  decide

/-- C1 (amended): for every shipment stored in a state reachable from a
boot state and every successful `update_shipment_status` call on it, the
new stored shipment appends the event and takes the status given by the
transition table, and the status never moves to an earlier one in the
order Created, InTransit, Delivered, Verified — except in exactly one
case: a `PickedUp` event on a shipment whose status is `Delivered` sets
the status back to `InTransit`. -/
theorem c1_update_status_forward_except_pickedup_regression
    (s0 : ContractState) (ops : List Op) (caller : AccountId)
    (shipment_id : ShipmentId) (event : TrackingEvent) (sh : Shipment)
    (s' : ContractState) (evs : List Event)
    (h0 : initOk s0)
    (hsh : mapGet (run s0 ops).shipments shipment_id = some sh)
    (hupd : update_shipment_status caller (run s0 ops) shipment_id event =
      .ok (s', evs)) :
    mapGet s'.shipments shipment_id =
      some ({ sh with tracking_data := sh.tracking_data ++ [event],
                      status := nextStatus sh.status event.event_type }) ∧
    (statusRank sh.status ≤ statusRank (nextStatus sh.status event.event_type) ∨
      (sh.status = ShipmentStatus.Delivered ∧
        event.event_type = EventType.PickedUp ∧
        nextStatus sh.status event.event_type = ShipmentStatus.InTransit)) := by
  have hnv := shipNotVerified_run s0 ops (initOk_shipNotVerified s0 h0)
    shipment_id sh hsh
  have hchar := update_shipment_status_ok caller (run s0 ops) shipment_id event
    sh hsh
  rw [hchar] at hupd
  injection hupd with hpair
  injection hpair with hA hB
  subst hA
  constructor
  · simp [mapGet_mapInsert]
  · exact nextStatus_forward sh.status event.event_type hnv

/-- Witness for the amended C1 at a concrete input: a `PickedUp` update on
the freshly created shipment. -/
theorem c1_update_status_forward_witness :
    mapGet w1StateUpd.shipments 0 =
      some ({ w1Shipment with
                tracking_data := w1Shipment.tracking_data ++ [evPickedUp],
                status := nextStatus w1Shipment.status evPickedUp.event_type }) ∧
    (statusRank w1Shipment.status ≤
        statusRank (nextStatus w1Shipment.status evPickedUp.event_type) ∨
      (w1Shipment.status = ShipmentStatus.Delivered ∧
        evPickedUp.event_type = EventType.PickedUp ∧
        nextStatus w1Shipment.status evPickedUp.event_type =
          ShipmentStatus.InTransit)) :=
  c1_update_status_forward_except_pickedup_regression bootState
    [Op.create 1 7 55 0] 2 0 evPickedUp w1Shipment w1StateUpd
    [Event.ShipmentUpdated 0 ShipmentStatus.InTransit EventType.PickedUp]
    (by exact ⟨rfl, rfl, rfl⟩) (by decide) rfl

/-- C2: in every state reachable from a boot state, every stored escrow
still has status `Pending` — in particular no escrow ever has status
`Released`, so `Released` is reachable only on paths containing both a
`Delivered` tracking event and a successful verification (vacuously: on no
path at all), and no single operation moves an escrow from `Pending` to
`Released`. -/
theorem c2_escrow_never_released (s0 : ContractState) (ops : List Op)
    (shipment_id : ShipmentId) (escrow : PaymentEscrow)
    (h0 : initOk s0)
    (hesc : mapGet (run s0 ops).conditional_payments shipment_id = some escrow) :
    escrow.status = EscrowStatus.Pending ∧
    escrow.status ≠ EscrowStatus.Released := by
  have hp := escrowAllPending_run s0 ops (initOk_escrowAllPending s0 h0)
    shipment_id escrow hesc
  refine ⟨hp, ?_⟩
  rw [hp]
  simp

/-- Witness for C2 at a concrete input: the escrow created alongside the
shipment for order 7. -/
theorem c2_escrow_never_released_witness :
    defaultPaymentEscrow.status = EscrowStatus.Pending ∧
    defaultPaymentEscrow.status ≠ EscrowStatus.Released :=
  c2_escrow_never_released bootState [Op.create 1 7 55 0] 0
    defaultPaymentEscrow (by exact ⟨rfl, rfl, rfl⟩) (by decide)

/-- C3: the claim fails on the code.  After the concrete trace that
creates, delivers and verifies shipment 0 at time 100, a second
`verify_delivery` call at time 200 succeeds (it is not rejected with an
error) and replaces the stored `DeliveryVerification` record with a new
one. -/
theorem c3_second_verify_succeeds_and_overwrites :
    isOkE (verify_delivery 9 200 c3State 0 [4] [5]) = true ∧
    mapGet c3State.delivery_verifications 0 =
      some { proof_of_delivery := [1], verifier_signature := 0,
             completion_time := 100, condition_report := [2] } ∧
    mapGet (exec c3State (Op.verify 9 200 0 [4] [5])).delivery_verifications 0 =
      some { proof_of_delivery := [4], verifier_signature := 0,
             completion_time := 200, condition_report := [5] } := by
  decide

/-- C3 (amended): `verify_delivery` performs no already-verified check:
whenever the shipment exists and its status is `Delivered`, a call
succeeds — also when a `DeliveryVerification` record is already stored for
the shipment id — and stores a fresh verification record built from the
call's arguments under that id, overwriting the previous record. -/
theorem c3_verify_delivery_overwrites (caller : AccountId) (ts : Timestamp)
    (s : ContractState) (shipment_id : ShipmentId) (proof report : List Nat)
    (sh : Shipment) (v0 : DeliveryVerification)
    (hsh : mapGet s.shipments shipment_id = some sh)
    (hst : sh.status = ShipmentStatus.Delivered)
    (hv : mapGet s.delivery_verifications shipment_id = some v0) :
    ∃ s' evs, verify_delivery caller ts s shipment_id proof report =
        .ok (s', evs) ∧
      mapGet s'.delivery_verifications shipment_id =
        some { proof_of_delivery := proof,
               verifier_signature :=
                 sign_delivery_verification shipment_id proof report,
               completion_time := ts, condition_report := report } := by
  refine ⟨_, _, verify_delivery_ok caller ts s shipment_id proof report sh
    hsh hst, ?_⟩
  simp [mapGet_mapInsert]

/-- Witness for the amended C3 at a concrete input: the second
verification call on shipment 0 of `c3State`. -/
theorem c3_verify_delivery_overwrites_witness :
    ∃ s' evs, verify_delivery 9 200 c3State 0 [4] [5] = .ok (s', evs) ∧
      mapGet s'.delivery_verifications 0 =
        some { proof_of_delivery := [4],
               verifier_signature := sign_delivery_verification 0 [4] [5],
               completion_time := 200, condition_report := [5] } :=
  c3_verify_delivery_overwrites 9 200 c3State 0 [4] [5] c3Shipment c3V0
    (by decide) (by decide) (by decide)

/-- C4: `verify_delivery` on an existing shipment whose status is not
`Delivered` returns `NotDelivered` and leaves the entire stored state
unchanged; on an unknown shipment id it returns `ShipmentNotFound`, also
leaving the state unchanged. -/
theorem c4_verify_delivery_guards (caller : AccountId) (ts : Timestamp)
    (s : ContractState) (shipment_id : ShipmentId) (proof report : List Nat) :
    (∀ sh, mapGet s.shipments shipment_id = some sh →
      sh.status ≠ ShipmentStatus.Delivered →
      verify_delivery caller ts s shipment_id proof report =
        .error Error.NotDelivered ∧
      exec s (.verify caller ts shipment_id proof report) = s) ∧
    (mapGet s.shipments shipment_id = none →
      verify_delivery caller ts s shipment_id proof report =
        .error Error.ShipmentNotFound ∧
      exec s (.verify caller ts shipment_id proof report) = s) := by
  constructor
  · intro sh hsh hst
    have hv : verify_delivery caller ts s shipment_id proof report =
        .error Error.NotDelivered := by
      simp [verify_delivery, hsh, hst]
    exact ⟨hv, by simp [exec, keepOnError, hv]⟩
  · intro hsh
    have hv : verify_delivery caller ts s shipment_id proof report =
        .error Error.ShipmentNotFound := by
      simp [verify_delivery, hsh]
    exact ⟨hv, by simp [exec, keepOnError, hv]⟩

/-- Witness for C4 at a concrete input: verifying the freshly created
(still `Created`) shipment 0 fails with `NotDelivered` and changes
nothing. -/
theorem c4_verify_delivery_guards_witness :
    verify_delivery 3 100 w1State 0 [1] [2] = .error Error.NotDelivered ∧
    exec w1State (Op.verify 3 100 0 [1] [2]) = w1State :=
  (c4_verify_delivery_guards 3 100 w1State 0 [1] [2]).1 w1Shipment
    (by decide) (by decide)

/-- C5: for every carrier-authorization check that rejects the caller of
`update_shipment_status` with `UnauthorizedAccess` or `InvalidCarrier`,
the call fails with that error and the stored state — in particular the
shipment record — is byte-for-byte unchanged: the check precedes every
mutation.  (`verify_carrier_auth` is a placeholder `Ok(())` in `src/`; the
check is therefore taken as a parameter, the spec naming its two failure
errors.) -/
theorem c5_unauthorized_update_rejected
    (auth : AccountId → CarrierId → Except Error Unit) (caller : AccountId)
    (s : ContractState) (shipment_id : ShipmentId) (event : TrackingEvent)
    (sh : Shipment) (e : Error)
    (hsh : mapGet s.shipments shipment_id = some sh)
    (hauth : auth caller sh.carrier = .error e)
    (he : e = Error.UnauthorizedAccess ∨ e = Error.InvalidCarrier) :
    update_shipment_status_gen auth caller s shipment_id event = .error e ∧
    keepOnError s (update_shipment_status_gen auth caller s shipment_id event)
      = s := by
  have hv : update_shipment_status_gen auth caller s shipment_id event =
      .error e := by
    simp [update_shipment_status_gen, hsh, hauth]
  exact ⟨hv, by simp [keepOnError, hv]⟩

/-- Witness for C5 at a concrete input: an authorization check that
rejects caller 9 with `UnauthorizedAccess`. -/
theorem c5_unauthorized_update_rejected_witness :
    update_shipment_status_gen (fun _ _ => .error Error.UnauthorizedAccess) 9
      w1State 0 evPickedUp = .error Error.UnauthorizedAccess ∧
    keepOnError w1State (update_shipment_status_gen
      (fun _ _ => .error Error.UnauthorizedAccess) 9 w1State 0 evPickedUp)
      = w1State :=
  c5_unauthorized_update_rejected (fun _ _ => .error Error.UnauthorizedAccess)
    9 w1State 0 evPickedUp w1Shipment Error.UnauthorizedAccess (by decide) rfl
    (Or.inl rfl)

/-- C6: `create_shipment` with an order id absent from the order catalog
fails with `OrderNotFound` and the stored state is unchanged: no shipment
and no escrow is inserted. -/
theorem c6_create_unknown_order (caller : AccountId) (s : ContractState)
    (order_id : OrderId) (destination : Address) (requirements : Nat)
    (horder : mapGet s.fulfillment_orders order_id = none) :
    create_shipment s order_id destination requirements =
      .error Error.OrderNotFound ∧
    exec s (.create caller order_id destination requirements) = s := by
  have hv : create_shipment s order_id destination requirements =
      .error Error.OrderNotFound := by
    simp [create_shipment, horder]
  exact ⟨hv, exec_create_none caller s order_id destination requirements horder⟩

/-- Witness for C6 at a concrete input: order 99 is not in the boot
state's catalog. -/
theorem c6_create_unknown_order_witness :
    create_shipment bootState 99 55 0 = .error Error.OrderNotFound ∧
    exec bootState (Op.create 1 99 55 0) = bootState :=
  c6_create_unknown_order 1 bootState 99 55 0 (by decide)

/-- C7: every `update_shipment_status` call on an existing shipment
succeeds; the new status is exactly `nextStatus` of the old one —
`PickedUp` gives `InTransit`, `Delivered` gives `Delivered`, `InTransit`
and `Exception` leave the status unchanged (a no-op on status, not an
error) — and the event is appended at the end of the tracking sequence,
the existing entries kept in order. -/
theorem c7_update_transition_table (caller : AccountId) (s : ContractState)
    (shipment_id : ShipmentId) (event : TrackingEvent) (sh : Shipment)
    (hsh : mapGet s.shipments shipment_id = some sh) :
    ∃ s', update_shipment_status caller s shipment_id event =
        .ok (s', [Event.ShipmentUpdated shipment_id
          (nextStatus sh.status event.event_type) event.event_type]) ∧
      mapGet s'.shipments shipment_id =
        some ({ sh with tracking_data := sh.tracking_data ++ [event],
                        status := nextStatus sh.status event.event_type }) ∧
      (event.event_type = EventType.PickedUp →
        nextStatus sh.status event.event_type = ShipmentStatus.InTransit) ∧
      (event.event_type = EventType.Delivered →
        nextStatus sh.status event.event_type = ShipmentStatus.Delivered) ∧
      ((event.event_type = EventType.InTransit ∨
          event.event_type = EventType.Exception) →
        nextStatus sh.status event.event_type = sh.status) := by
  refine ⟨_, update_shipment_status_ok caller s shipment_id event sh hsh,
    ?_, ?_, ?_, ?_⟩
  · simp [mapGet_mapInsert]
  · intro h; simp [nextStatus, h]
  · intro h; simp [nextStatus, h]
  · rintro (h | h) <;> simp [nextStatus, h]

/-- Witness for C7 at a concrete input: a `PickedUp` event on the freshly
created shipment 0. -/
theorem c7_update_transition_table_witness :
    ∃ s', update_shipment_status 2 w1State 0 evPickedUp =
        .ok (s', [Event.ShipmentUpdated 0
          (nextStatus w1Shipment.status evPickedUp.event_type)
          evPickedUp.event_type]) ∧
      mapGet s'.shipments 0 =
        some ({ w1Shipment with
                  tracking_data := w1Shipment.tracking_data ++ [evPickedUp],
                  status := nextStatus w1Shipment.status
                    evPickedUp.event_type }) ∧
      (evPickedUp.event_type = EventType.PickedUp →
        nextStatus w1Shipment.status evPickedUp.event_type =
          ShipmentStatus.InTransit) ∧
      (evPickedUp.event_type = EventType.Delivered →
        nextStatus w1Shipment.status evPickedUp.event_type =
          ShipmentStatus.Delivered) ∧
      ((evPickedUp.event_type = EventType.InTransit ∨
          evPickedUp.event_type = EventType.Exception) →
        nextStatus w1Shipment.status evPickedUp.event_type =
          w1Shipment.status) :=
  c7_update_transition_table 2 w1State 0 evPickedUp w1Shipment (by decide)

/-- C8: the claim fails on the code, and the code contradicts its own
comment (the id should come from a quantum-resistant hash): the
placeholder `generate_shipment_id` returns `ShipmentId::default()` on
every call, so two successful `create_shipment` calls for the distinct
catalog orders 7 and 8 both return shipment id 0, and the second call
overwrites the first call's stored shipment (its `order_id` flips from 7
to 8) and its escrow. -/
theorem c8_shipment_id_collision :
    createdShipmentId (create_shipment bootState 7 55 0) = some 0 ∧
    createdShipmentId
      (create_shipment (exec bootState (Op.create 1 7 55 0)) 8 66 0) =
        some 0 ∧
    (mapGet (exec bootState (Op.create 1 7 55 0)).shipments 0).map
        Shipment.order_id = some 7 ∧
    (mapGet (run bootState [Op.create 1 7 55 0,
        Op.create 1 8 66 0]).shipments 0).map Shipment.order_id = some 8 := by
  decide

/-- C9: `authenticate_product` on an unknown product id fails with
`ProductNotFound` (and, the call failing, appends nothing to any
history); when the product exists and the authenticity check returns
`false`, the call returns `false` with the state — in particular every
authentication history — completely unchanged; and every successful call
emits exactly one `ProductAuthenticated` event carrying the outcome,
whether that outcome is `true` or `false`.  (`verify_product_authenticity`
is a placeholder `Ok(true)` in `src/`; the check is therefore taken as a
parameter so that its failing branch is meaningful.) -/
theorem c9_authenticate_product_outcomes
    (check : AuthenticationData → List Nat → Except Error Bool)
    (caller : AccountId) (ts : Timestamp) (s : ContractState)
    (product_id : ProductId) (data : List Nat) :
    (mapGet s.product_authentications product_id = none →
      authenticate_product_gen check caller ts s product_id data =
        .error Error.ProductNotFound) ∧
    (∀ info, mapGet s.product_authentications product_id = some info →
      check info data = .ok false →
      authenticate_product_gen check caller ts s product_id data =
        .ok (s, [Event.ProductAuthenticated product_id false caller],
          false)) ∧
    (∀ info s' evs b,
      mapGet s.product_authentications product_id = some info →
      authenticate_product_gen check caller ts s product_id data =
        .ok (s', evs, b) →
      evs = [Event.ProductAuthenticated product_id b caller]) := by
  refine ⟨?_, ?_, ?_⟩
  · intro h
    simp [authenticate_product_gen, h]
  · intro info h hc
    exact authenticate_product_gen_ok_false check caller ts s product_id data
      info h hc
  · intro info s' evs b h hok
    cases hc : check info data with
    | error e => simp [authenticate_product_gen, h, hc] at hok
    | ok auth =>
      cases auth with
      | true =>
        rw [authenticate_product_gen_ok_true check caller ts s product_id data
          info h hc] at hok
        injection hok with hpair
        injection hpair with hA hrest
        injection hrest with hevs hb
        subst hevs
        subst hb
        rfl
      | false =>
        rw [authenticate_product_gen_ok_false check caller ts s product_id
          data info h hc] at hok
        injection hok with hpair
        injection hpair with hA hrest
        injection hrest with hevs hb
        subst hevs
        subst hb
        rfl

/-- Witness for C9 at a concrete input: a check rejecting product 3's
data returns `false`, mutates nothing and emits the outcome event. -/
theorem c9_authenticate_product_outcomes_witness :
    authenticate_product_gen (fun _ _ => Except.ok false) 4 100 bootState 3
      [9] = .ok (bootState, [Event.ProductAuthenticated 3 false 4], false) :=
  (c9_authenticate_product_outcomes (fun _ _ => Except.ok false) 4 100
    bootState 3 [9]).2.1 prodAuth3 (by decide) rfl

/-- C10: a successful `verify_delivery` call leaves the stored shipments
map — hence the verified shipment's record and its status — completely
unchanged, recording the verification only in the sibling
`delivery_verifications` store; and along every run from a boot state no
stored shipment ever has status `Verified`, so that value is never
written by any operation. -/
theorem c10_verify_delivery_shipment_frame :
    (∀ caller ts s shipment_id proof report s' evs,
      verify_delivery caller ts s shipment_id proof report = .ok (s', evs) →
      s'.shipments = s.shipments) ∧
    (∀ s0, initOk s0 → ∀ ops shipment_id sh,
      mapGet (run s0 ops).shipments shipment_id = some sh →
      sh.status ≠ ShipmentStatus.Verified) := by
  constructor
  · intro caller ts s shipment_id proof report s' evs hok
    cases hsh : mapGet s.shipments shipment_id with
    | none => simp [verify_delivery, hsh] at hok
    | some sh =>
      by_cases hst : sh.status = ShipmentStatus.Delivered
      · rw [verify_delivery_ok caller ts s shipment_id proof report sh hsh
          hst] at hok
        injection hok with hpair
        injection hpair with hA hB
        subst hA
        rfl
      · simp [verify_delivery, hsh, hst] at hok
  · intro s0 h0 ops shipment_id sh hsh
    exact shipNotVerified_run s0 ops (initOk_shipNotVerified s0 h0)
      shipment_id sh hsh

/-- Witness for C10 at a concrete input: the delivered shipment of
`c3State` keeps its exact shipments store across the successful
verification, and the created shipment of `w1State` is not `Verified`. -/
theorem c10_verify_delivery_shipment_frame_witness :
    (exec c3State (Op.verify 9 200 0 [4] [5])).shipments =
      c3State.shipments ∧
    w1Shipment.status ≠ ShipmentStatus.Verified := by
  constructor
  · have h := (c10_verify_delivery_shipment_frame).1 9 200 c3State 0 [4] [5]
      (exec c3State (Op.verify 9 200 0 [4] [5]))
      [Event.DeliveryVerified 0 9 200] rfl
    exact h
  · exact (c10_verify_delivery_shipment_frame).2 bootState ⟨rfl, rfl, rfl⟩
      [Op.create 1 7 55 0] 0 w1Shipment (by decide)

end PhysicalAssetDelivery
